import Mathlib

/-!
Verification development for the TVM (time-value-of-money) solver in
`src/App.tsx` of `manyone/bolt-fincalc`.

The source is TypeScript running on IEEE-754 binary64 numbers.  Two shallow
embeddings of the numeric core are developed side by side:

* a computable model `JS` of the double-precision value space — exact
  rationals standing in for finite doubles, plus the special values `NaN`,
  `+Infinity` and `-Infinity` with their IEEE propagation rules.  This model
  is exact about which operations produce special values (division by zero,
  `0 * Infinity`, `Infinity - Infinity`, comparisons with `NaN`, the special
  cases of `**`), which is what the error-handling claims are about.  It
  deliberately omits rounding, overflow and the sign of zero, and it leaves
  transcendental results (`Math.log` of a positive rational other than `1`,
  `**` with a fractional exponent on a positive base other than `0` and `1`)
  unspecified as `NaN`; no theorem below evaluates those operations outside
  their exactly-represented cases.

* an exact-real model (`solveForR` and friends) of the same source lines,
  with `Real.rpow` for `**` and `Real.log` for `Math.log`, used for the
  claims about the closed-form algebra, where the spec's formulas are exact
  mathematical identities.

* an overflow-refined variant of the `JS` operations (the `ov`-prefixed
  definitions below), identical except that finite results of magnitude at
  least `2^1024` overflow to the signed infinity as binary64 results do.  It
  is used for the one claim whose truth depends on binary64 range — whether
  the interest-rate solve can return an infinity — where the exact-rational
  idealization would be load-bearing.
-/

namespace FinCalc

/-- The seven payment frequencies of `type PaymentFrequency` (App.tsx line 4). -/
inductive PaymentFrequency where
  | monthly
  | yearly
  | daily
  | weekly
  | semiMonthly
  | biWeekly
  | semiAnnually
  deriving DecidableEq

/-- The `frequencyMap` constant table (App.tsx lines 15-23): compounding
periods per year for each frequency. -/
def frequencyMap : PaymentFrequency → ℕ
  | .monthly => 12
  | .yearly => 1
  | .daily => 365
  | .weekly => 52
  | .semiMonthly => 24
  | .biWeekly => 26
  | .semiAnnually => 2

/-- Model of the JavaScript number space: exact rationals for finite doubles,
plus `NaN` and the two infinities.  The sign of zero is not modelled. -/
inductive JS where
  | num (q : ℚ)
  | inf (pos : Bool)
  | nan
  deriving DecidableEq

/-- A JS value is a finite number (neither `NaN` nor an infinity). -/
def JS.finite : JS → Bool
  | .num _ => true
  | _ => false

/-- IEEE negation. -/
def jsNeg : JS → JS
  | .num a => .num (-a)
  | .inf p => .inf (!p)
  | .nan => .nan

/-- IEEE addition: `NaN` absorbs, opposite infinities give `NaN`. -/
def jsAdd : JS → JS → JS
  | .nan, _ => .nan
  | _, .nan => .nan
  | .inf p, .inf q => if p = q then .inf p else .nan
  | .inf p, .num _ => .inf p
  | .num _, .inf q => .inf q
  | .num a, .num b => .num (a + b)

/-- IEEE subtraction, `x - y = x + (-y)`. -/
def jsSub (a b : JS) : JS := jsAdd a (jsNeg b)

/-- IEEE multiplication: `NaN` absorbs, `0 * Infinity = NaN`. -/
def jsMul : JS → JS → JS
  | .nan, _ => .nan
  | _, .nan => .nan
  | .inf p, .inf q => .inf (p == q)
  | .inf p, .num a => if a = 0 then .nan else .inf (p == decide (0 < a))
  | .num a, .inf q => if a = 0 then .nan else .inf (q == decide (0 < a))
  | .num a, .num b => .num (a * b)

/-- IEEE division: `NaN` absorbs, `Infinity / Infinity = NaN`,
`x / 0` is a signed infinity for `x ≠ 0` and `NaN` for `x = 0`
(the unmodelled sign of zero is taken positive). -/
def jsDiv : JS → JS → JS
  | .nan, _ => .nan
  | _, .nan => .nan
  | .inf _, .inf _ => .nan
  | .inf p, .num a => .inf (p == decide (0 ≤ a))
  | .num _, .inf _ => .num 0
  | .num a, .num b =>
    if b = 0 then (if a = 0 then .nan else .inf (decide (0 < a))) else .num (a / b)

/-- `Math.abs`. -/
def jsAbs : JS → JS
  | .nan => .nan
  | .inf _ => .inf true
  | .num a => .num |a|

/-- The `<` comparison: any comparison with `NaN` is false. -/
def jsLt : JS → JS → Bool
  | .nan, _ => false
  | _, .nan => false
  | .inf p, .inf q => !p && q
  | .inf p, .num _ => !p
  | .num _, .inf q => q
  | .num a, .num b => decide (a < b)

/-- Whether a rational is an odd integer (used by `**` at a `-Infinity` base). -/
def qOddInt (q : ℚ) : Bool := q.den == 1 && q.num % 2 != 0

/-- The `**` operator, following the ECMAScript `Number::exponentiate` case
analysis: a `NaN` exponent gives `NaN`; a zero exponent gives `1` for every
base including `NaN`; then the special bases (`NaN`, infinities, `0`) and the
infinite exponents are dispatched; a negative base with a non-integer
exponent gives `NaN`.  A finite base with an integer exponent is computed
exactly by `zpow`.  The one case a rational-valued model cannot represent —
a positive base other than `0` and `1` with a fractional exponent — is left
unspecified as `NaN`; no theorem in this file evaluates it. -/
def jsPow (b e : JS) : JS :=
  match e with
  | .nan => .nan
  | .num k =>
    if k = 0 then .num 1
    else match b with
      | .nan => .nan
      | .inf true => if 0 < k then .inf true else .num 0
      | .inf false =>
        if 0 < k then (if qOddInt k then .inf false else .inf true) else .num 0
      | .num a =>
        if a = 0 then (if 0 < k then .num 0 else .inf true)
        else if k.den = 1 then .num (a ^ k.num)
        else if a = 1 then .num 1
        else .nan
  | .inf p =>
    match b with
    | .nan => .nan
    | .inf _ => if p then .inf true else .num 0
    | .num a =>
      if a = 1 ∨ a = -1 then .nan
      else if 1 < |a| then (if p then .inf true else .num 0)
      else if p then .num 0 else .inf true

/-- `Math.log`, on the arguments where its value is exactly representable:
`log NaN = NaN`, `log x = NaN` for `x < 0`, `log 0 = -Infinity`, `log 1 = 0`,
`log Infinity = Infinity`.  The transcendental values (positive rational
argument other than `1`) are unspecified as `NaN`; no theorem in this file
evaluates them. -/
def jsLog : JS → JS
  | .nan => .nan
  | .inf true => .inf true
  | .inf false => .nan
  | .num q =>
    if q < 0 then .nan
    else if q = 0 then .inf false
    else if q = 1 then .num 0
    else .nan

/-- The `CalculatorState` record (App.tsx lines 6-13).  The source holds the
five numeric fields as strings and re-parses them with `parseFloat` on every
solve; the model holds the parsed values directly (an empty or malformed
string parses to `NaN`, which `JS.nan` represents). -/
structure CalcState where
  presentValue : JS
  futureValue : JS
  interestRate : JS
  numberOfPeriods : JS
  payment : JS
  paymentFrequency : PaymentFrequency
  deriving DecidableEq

/-- The five numeric fields a solve request can target (the `field` argument
of `solveFor`; the UI never passes `paymentFrequency`). -/
inductive SolveField where
  | presentValue
  | futureValue
  | interestRate
  | numberOfPeriods
  | payment
  deriving DecidableEq

/-- `getEffectiveRate` (App.tsx lines 49-51):
`parseFloat(state.interestRate) / 100 / frequencyMap[state.paymentFrequency]`. -/
def getEffectiveRate (s : CalcState) : JS :=
  jsDiv (jsDiv s.interestRate (JS.num 100)) (JS.num (frequencyMap s.paymentFrequency : ℚ))

/-- The convergence tolerance `1e-6` (App.tsx line 54). -/
def tolerance : ℚ := 1 / 1000000

/-- The error message thrown on non-convergence (App.tsx line 71). -/
def nonConvergenceMsg : String := "Interest rate calculation did not converge"

/-- `f` of the Newton iteration (App.tsx line 59):
`pv * (1 + r) ** n + pmt * ((1 + r) ** n - 1) / r + fv`. -/
def newtonF (pv fv n pmt r : JS) : JS :=
  jsAdd
    (jsAdd (jsMul pv (jsPow (jsAdd (JS.num 1) r) n))
      (jsDiv (jsMul pmt (jsSub (jsPow (jsAdd (JS.num 1) r) n) (JS.num 1))) r))
    fv

/-- `df` of the Newton iteration (App.tsx line 60):
`n * pv * (1 + r) ** (n - 1)
 + pmt * (n * (1 + r) ** (n - 1) * r - ((1 + r) ** n - 1)) / r ** 2`. -/
def newtonDf (pv n pmt r : JS) : JS :=
  jsAdd
    (jsMul (jsMul n pv) (jsPow (jsAdd (JS.num 1) r) (jsSub n (JS.num 1))))
    (jsDiv
      (jsMul pmt
        (jsSub (jsMul (jsMul n (jsPow (jsAdd (JS.num 1) r) (jsSub n (JS.num 1)))) r)
          (jsSub (jsPow (jsAdd (JS.num 1) r) n) (JS.num 1))))
      (jsPow r (JS.num 2)))

/-- One Newton update `newR = r - f / df` (App.tsx line 62). -/
def newtonStep (pv fv n pmt r : JS) : JS :=
  jsSub r (jsDiv (newtonF pv fv n pmt r) (newtonDf pv n pmt r))

/-- The annualized percentage returned on convergence (App.tsx line 65):
`newR * frequencyMap[state.paymentFrequency] * 100`. -/
def annualize (freq : PaymentFrequency) (x : JS) : JS :=
  jsMul (jsMul x (JS.num (frequencyMap freq : ℚ))) (JS.num 100)

/-- The `for` loop of `calculateInterestRate` (App.tsx lines 58-71), with the
remaining iteration budget as fuel: if `|newR - r| < tolerance` the annualized
rate is returned, otherwise the iteration continues; an exhausted budget
throws (modelled as `Except.error`). -/
def newtonLoop (freq : PaymentFrequency) (pv fv n pmt : JS) : ℕ → JS → Except String JS
  | 0, _ => .error nonConvergenceMsg
  | fuel + 1, r =>
    if jsLt (jsAbs (jsSub (newtonStep pv fv n pmt r) r)) (JS.num tolerance) then
      .ok (annualize freq (newtonStep pv fv n pmt r))
    else
      newtonLoop freq pv fv n pmt fuel (newtonStep pv fv n pmt r)

/-- `calculateInterestRate` (App.tsx lines 53-72): at most 100 Newton
iterations from the initial guess `r = 0.1`. -/
def calculateInterestRate (freq : PaymentFrequency) (pv fv n pmt : JS) :
    Except String JS :=
  newtonLoop freq pv fv n pmt 100 (JS.num (1 / 10))

/-- The numeric core of `solveFor` (App.tsx lines 74-101): reads the state,
negates the future value (`fv = -parseFloat(state.futureValue)`, line 78),
and dispatches on the requested field.  The closed-form branches always
produce a number (possibly `NaN` or an infinity); only the interest-rate
branch can fail, by throwing from `calculateInterestRate`. -/
def solveFor (field : SolveField) (s : CalcState) : Except String JS :=
  let r := getEffectiveRate s
  let n := s.numberOfPeriods
  let pv := s.presentValue
  let fv := jsNeg s.futureValue
  let pmt := s.payment
  match field with
  | .presentValue =>
    .ok (jsDiv
      (jsSub fv (jsDiv (jsMul pmt (jsSub (jsPow (jsAdd (JS.num 1) r) n) (JS.num 1))) r))
      (jsPow (jsAdd (JS.num 1) r) n))
  | .futureValue =>
    .ok (jsNeg (jsAdd (jsMul pv (jsPow (jsAdd (JS.num 1) r) n))
      (jsDiv (jsMul pmt (jsSub (jsPow (jsAdd (JS.num 1) r) n) (JS.num 1))) r)))
  | .interestRate =>
    calculateInterestRate s.paymentFrequency pv (jsNeg fv) n pmt
  | .numberOfPeriods =>
    .ok (jsDiv (jsLog (jsDiv (jsAdd fv (jsDiv pmt r)) (jsAdd pv (jsDiv pmt r))))
      (jsLog (jsAdd (JS.num 1) r)))
  | .payment =>
    .ok (jsDiv (jsMul (jsSub fv (jsMul pv (jsPow (jsAdd (JS.num 1) r) n))) r)
      (jsSub (jsPow (jsAdd (JS.num 1) r) n) (JS.num 1)))

/-- The numeric value of `Number.prototype.toFixed(d)`: the nearest multiple
of `10^-d`, ties toward `+Infinity`; `NaN` and the infinities format as
themselves. -/
def toFixedVal (x : JS) (d : ℕ) : JS :=
  match x with
  | .num q => .num ((⌊q * 10 ^ d + 1 / 2⌋ : ℤ) / (10 ^ d : ℚ))
  | .inf p => .inf p
  | .nan => .nan

/-- The display update of `solveFor` (App.tsx lines 103-106): the computed
result is formatted with `toFixed(3)` for the interest rate and `toFixed(2)`
for every other field before being stored back into the form state. -/
def displayedStore (field : SolveField) (s : CalcState) : Except String JS :=
  (solveFor field s).map
    (fun result => toFixedVal result (if field = SolveField.interestRate then 3 else 2))

/-- The Newton iterate sequence from a given start: `iterSeq … r0 k` is the
value of `r` entering iteration `k` of the loop (`r0` at iteration 0). -/
def iterSeq (pv fv n pmt r0 : JS) : ℕ → JS
  | 0 => r0
  | k + 1 => newtonStep pv fv n pmt (iterSeq pv fv n pmt r0 k)

/-- The loop's convergence test at iteration `k`:
`|newR - r| < tolerance` with `r` the `k`-th iterate. -/
def tolMetAt (pv fv n pmt r0 : JS) (k : ℕ) : Prop :=
  jsLt (jsAbs (jsSub (newtonStep pv fv n pmt (iterSeq pv fv n pmt r0 k))
    (iterSeq pv fv n pmt r0 k))) (JS.num tolerance) = true

instance (pv fv n pmt r0 : JS) (k : ℕ) : Decidable (tolMetAt pv fv n pmt r0 k) := by
  unfold tolMetAt; infer_instance

/-!
The exact-real model of the same source lines.  Here `**` is `Real.rpow`
(the `(· ^ ·) : ℝ → ℝ → ℝ` instance) and `Math.log` is `Real.log`.  Field
division by zero is Lean's `0`-convention rather than a float infinity, so
this model is only used by claims that assume the involved denominators are
nonzero; the special-value behaviour is settled on the `JS` model above.
-/

/-- `calculateInterestRate`'s loop in exact-real arithmetic
(App.tsx lines 58-71). -/
noncomputable def newtonLoopR (freq : PaymentFrequency) (pv fv n pmt : ℝ) :
    ℕ → ℝ → Except String ℝ
  | 0, _ => .error nonConvergenceMsg
  | fuel + 1, r =>
    let f := pv * (1 + r) ^ n + pmt * ((1 + r) ^ n - 1) / r + fv
    let df := n * pv * (1 + r) ^ (n - 1) +
      pmt * (n * (1 + r) ^ (n - 1) * r - ((1 + r) ^ n - 1)) / r ^ (2 : ℝ)
    let newR := r - f / df
    if |newR - r| < 1 / 1000000 then
      .ok (newR * (frequencyMap freq : ℝ) * 100)
    else
      newtonLoopR freq pv fv n pmt fuel newR

/-- `calculateInterestRate` (App.tsx lines 53-72) in exact-real arithmetic. -/
noncomputable def calculateInterestRateR (freq : PaymentFrequency)
    (pv fv n pmt : ℝ) : Except String ℝ :=
  newtonLoopR freq pv fv n pmt 100 (1 / 10)

/-- The numeric core of `solveFor` (App.tsx lines 74-101) in exact-real
arithmetic; same structure as `solveFor` above. -/
noncomputable def solveForR (field : SolveField) (pv fvIn rate n pmt : ℝ)
    (freq : PaymentFrequency) : Except String ℝ :=
  let r := rate / 100 / (frequencyMap freq : ℝ)
  let fv := -fvIn
  match field with
  | .presentValue =>
    .ok ((fv - pmt * ((1 + r) ^ n - 1) / r) / (1 + r) ^ n)
  | .futureValue =>
    .ok (-(pv * (1 + r) ^ n + pmt * ((1 + r) ^ n - 1) / r))
  | .interestRate =>
    calculateInterestRateR freq pv (-fv) n pmt
  | .numberOfPeriods =>
    .ok (Real.log ((fv + pmt / r) / (pv + pmt / r)) / Real.log (1 + r))
  | .payment =>
    .ok ((fv - pv * (1 + r) ^ n) * r / ((1 + r) ^ n - 1))

/-!
Spec-side definitions.  Each is a transcription of the spec's words, kept
separate from the source-side definitions above so the two can be compared
by a refinement theorem.
-/

/-- Spec transcription (§4.2): `presentValue = (fv − pmt·((1+r)^n − 1)/r) / (1+r)^n`,
with `fv = −futureValue` per the sign convention. -/
noncomputable def specPresentValueFormula (fv pmt r n : ℝ) : ℝ :=
  (fv - pmt * ((1 + r) ^ n - 1) / r) / (1 + r) ^ n

/-- Spec transcription (§4.2): `futureValue = −(pv·(1+r)^n + pmt·((1+r)^n − 1)/r)`
(output re-negated to restore the sign convention). -/
noncomputable def specFutureValueFormula (pv pmt r n : ℝ) : ℝ :=
  -(pv * (1 + r) ^ n + pmt * ((1 + r) ^ n - 1) / r)

/-- Spec transcription (§4.2):
`numberOfPeriods = ln((fv + pmt/r) / (pv + pmt/r)) / ln(1+r)`. -/
noncomputable def specNumberOfPeriodsFormula (pv fv pmt r : ℝ) : ℝ :=
  Real.log ((fv + pmt / r) / (pv + pmt / r)) / Real.log (1 + r)

/-- Spec transcription (§4.2): `payment = (fv − pv·(1+r)^n)·r / ((1+r)^n − 1)`. -/
noncomputable def specPaymentFormula (pv fv r n : ℝ) : ℝ :=
  (fv - pv * (1 + r) ^ n) * r / ((1 + r) ^ n - 1)

/-- Spec transcription (§4.2, interest-rate branch): the root function
`f(r) = pv·(1+r)^n + pmt·((1+r)^n − 1)/r + fv`. -/
def specRootF (pv fv n pmt r : JS) : JS :=
  jsAdd
    (jsAdd (jsMul pv (jsPow (jsAdd (JS.num 1) r) n))
      (jsDiv (jsMul pmt (jsSub (jsPow (jsAdd (JS.num 1) r) n) (JS.num 1))) r))
    fv

/-- Spec transcription (§4.2, interest-rate branch): the derivative
`f'(r) = n·pv·(1+r)^(n−1) + pmt·(n·(1+r)^(n−1)·r − ((1+r)^n − 1)) / r²`. -/
def specRootDf (pv n pmt r : JS) : JS :=
  jsAdd
    (jsMul (jsMul n pv) (jsPow (jsAdd (JS.num 1) r) (jsSub n (JS.num 1))))
    (jsDiv
      (jsMul pmt
        (jsSub (jsMul (jsMul n (jsPow (jsAdd (JS.num 1) r) (jsSub n (JS.num 1)))) r)
          (jsSub (jsPow (jsAdd (JS.num 1) r) n) (JS.num 1))))
      (jsPow r (JS.num 2)))

/-- Spec transcription (§4.2): one Newton-Raphson update
`r_next = r − f(r)/f'(r)`. -/
def specNewtonUpdate (pv fv n pmt r : JS) : JS :=
  jsSub r (jsDiv (specRootF pv fv n pmt r) (specRootDf pv n pmt r))

/-- Spec transcription (§4.2): the returned value is annualized and expressed
as a percentage, `r_next × periodsPerYear(frequency) × 100`. -/
def specAnnualized (freq : PaymentFrequency) (r : JS) : JS :=
  jsMul (jsMul r (JS.num (frequencyMap freq : ℚ))) (JS.num 100)

/-- Spec transcription (§4.2): iterate the Newton-Raphson update for at most
the given number of remaining iterations; stop and return the annualized
percentage when `|r_next − r| < 1e-6`; fail with the non-convergence error
when the iterations are exhausted. -/
def specNewtonIter (freq : PaymentFrequency) (pv fv n pmt : JS) :
    ℕ → JS → Except String JS
  | 0, _ => .error nonConvergenceMsg
  | fuel + 1, r =>
    if jsLt (jsAbs (jsSub (specNewtonUpdate pv fv n pmt r) r))
        (JS.num (1 / 1000000)) then
      .ok (specAnnualized freq (specNewtonUpdate pv fv n pmt r))
    else
      specNewtonIter freq pv fv n pmt fuel (specNewtonUpdate pv fv n pmt r)

/-- Spec transcription (§4.2): the interest-rate solve is Newton-Raphson from
the initial guess `r₀ = 0.1` for at most 100 iterations. -/
def specNewtonSolve (freq : PaymentFrequency) (pv fv n pmt : JS) :
    Except String JS :=
  specNewtonIter freq pv fv n pmt 100 (JS.num (1 / 10))

/-!
Concrete states used by the evaluation theorems below.
-/

/-- Zero nominal rate state: `pv = 100`, `fv = 0`, rate `0`, `n = 2`,
`pmt = 7`, monthly — the periodic rate is `0 / 100 / 12 = 0`. -/
def zeroRateState : CalcState :=
  { presentValue := JS.num 100
    futureValue := JS.num 0
    interestRate := JS.num 0
    numberOfPeriods := JS.num 2
    payment := JS.num 7
    paymentFrequency := .monthly }

/-- A state with a non-finite known field: `pv` is `NaN` (as an empty or
malformed text field parses), the rest finite: rate `12`, `n = 12`,
`fv = 0`, `pmt = 0`, monthly. -/
def nanPvState : CalcState :=
  { presentValue := JS.nan
    futureValue := JS.num 0
    interestRate := JS.num 12
    numberOfPeriods := JS.num 12
    payment := JS.num 0
    paymentFrequency := .monthly }

/-- A valid TVM tuple in degenerate position: `pv = 2`, `fv = -2`,
nominal rate `1200` monthly (periodic `r = 1`), `n = 3`, `pmt = -2`.
It satisfies `pv·(1+r)^n + pmt·((1+r)^n − 1)/r + fv = 0` exactly, and
`pv + pmt/r = 0`. -/
def degenerateTupleState : CalcState :=
  { presentValue := JS.num 2
    futureValue := JS.num (-2)
    interestRate := JS.num 1200
    numberOfPeriods := JS.num 3
    payment := JS.num (-2)
    paymentFrequency := .monthly }

/-- A state whose payment solve yields a value that is not already at display
precision: `pv = 1`, `fv = 0`, rate `100` monthly (periodic `r = 1/12`),
`n = 1`, solving payment gives `-13/12`. -/
def fullPrecisionState : CalcState :=
  { presentValue := JS.num 1
    futureValue := JS.num 0
    interestRate := JS.num 100
    numberOfPeriods := JS.num 1
    payment := JS.num 0
    paymentFrequency := .monthly }

/-!
The overflow-refined model.  The base `JS` operations above idealize binary64
range away: a product of finite numbers is always finite there, whereas a
binary64 multiply overflows to a signed infinity when the result's magnitude
reaches `2^1024`.  That idealization is harmless for properties decided by
control flow and special-value propagation, but it is load-bearing for the
question whether the interest-rate solve can return an infinity: in binary64
the final annualization `newR * periodsPerYear * 100` overflows for large
converged rates.  The `ov`-prefixed operations below are the same functions
with the overflow rule added on every finite result (rounding below the
threshold is still idealized as exact, and gradual underflow is not
modelled); the interest-rate path of App.tsx lines 53-72 is re-embedded on
top of them.
-/

/-- The binary64 overflow threshold `2^1024` as a numeral (spelled out so
kernel evaluation need not unfold a 1024-step power). -/
def binary64Threshold : ℚ :=
  179769313486231590772930519078902473361797697894230657273430081157732675805500963132708477322407536021120113879871393357658789768814416622492847430639474124377767893424865485276302219601246094119453082952085005768838150682342462881473913110540827237163350510684586298239947245938479716304835356329624224137216

/-- The magnitude `1e306` of the counterexample future value, as a numeral
(spelled out so kernel evaluation need not unfold a 306-step power). -/
def largeMagnitude : ℚ :=
  1000000000000000000000000000000000000000000000000000000000000000000000000000000000000000000000000000000000000000000000000000000000000000000000000000000000000000000000000000000000000000000000000000000000000000000000000000000000000000000000000000000000000000000000000000000000000000000000000000000000000000000

/-- A finite result of magnitude at least `2^1024` overflows to the signed
infinity, as binary64 does; smaller results stay exact. -/
def ovClip (q : ℚ) : JS :=
  if |q| < binary64Threshold then .num q else .inf (decide (0 < q))

/-- `jsAdd` with binary64 overflow on the finite-plus-finite case. -/
def ovAdd : JS → JS → JS
  | .nan, _ => .nan
  | _, .nan => .nan
  | .inf p, .inf q => if p = q then .inf p else .nan
  | .inf p, .num _ => .inf p
  | .num _, .inf q => .inf q
  | .num a, .num b => ovClip (a + b)

/-- `jsSub` with overflow, `x - y = x + (-y)`. -/
def ovSub (a b : JS) : JS := ovAdd a (jsNeg b)

/-- `jsMul` with binary64 overflow on the finite-times-finite case. -/
def ovMul : JS → JS → JS
  | .nan, _ => .nan
  | _, .nan => .nan
  | .inf p, .inf q => .inf (p == q)
  | .inf p, .num a => if a = 0 then .nan else .inf (p == decide (0 < a))
  | .num a, .inf q => if a = 0 then .nan else .inf (q == decide (0 < a))
  | .num a, .num b => ovClip (a * b)

/-- `jsDiv` with binary64 overflow on the finite-by-nonzero-finite case. -/
def ovDiv : JS → JS → JS
  | .nan, _ => .nan
  | _, .nan => .nan
  | .inf _, .inf _ => .nan
  | .inf p, .num a => .inf (p == decide (0 ≤ a))
  | .num _, .inf _ => .num 0
  | .num a, .num b =>
    if b = 0 then (if a = 0 then .nan else .inf (decide (0 < a))) else ovClip (a / b)

/-- `jsPow` with binary64 overflow on the exact finite case; the special-value
dispatch is unchanged. -/
def ovPow (b e : JS) : JS :=
  match e with
  | .nan => .nan
  | .num k =>
    if k = 0 then .num 1
    else match b with
      | .nan => .nan
      | .inf true => if 0 < k then .inf true else .num 0
      | .inf false =>
        if 0 < k then (if qOddInt k then .inf false else .inf true) else .num 0
      | .num a =>
        if a = 0 then (if 0 < k then .num 0 else .inf true)
        else if k.den = 1 then ovClip (a ^ k.num)
        else if a = 1 then .num 1
        else .nan
  | .inf p =>
    match b with
    | .nan => .nan
    | .inf _ => if p then .inf true else .num 0
    | .num a =>
      if a = 1 ∨ a = -1 then .nan
      else if 1 < |a| then (if p then .inf true else .num 0)
      else if p then .num 0 else .inf true

/-- `f` of the Newton iteration (App.tsx line 59) in the overflow-refined
model. -/
def ovNewtonF (pv fv n pmt r : JS) : JS :=
  ovAdd
    (ovAdd (ovMul pv (ovPow (ovAdd (JS.num 1) r) n))
      (ovDiv (ovMul pmt (ovSub (ovPow (ovAdd (JS.num 1) r) n) (JS.num 1))) r))
    fv

/-- `df` of the Newton iteration (App.tsx line 60) in the overflow-refined
model. -/
def ovNewtonDf (pv n pmt r : JS) : JS :=
  ovAdd
    (ovMul (ovMul n pv) (ovPow (ovAdd (JS.num 1) r) (ovSub n (JS.num 1))))
    (ovDiv
      (ovMul pmt
        (ovSub (ovMul (ovMul n (ovPow (ovAdd (JS.num 1) r) (ovSub n (JS.num 1)))) r)
          (ovSub (ovPow (ovAdd (JS.num 1) r) n) (JS.num 1))))
      (ovPow r (JS.num 2)))

/-- One Newton update `newR = r - f / df` (App.tsx line 62) in the
overflow-refined model. -/
def ovNewtonStep (pv fv n pmt r : JS) : JS :=
  ovSub r (ovDiv (ovNewtonF pv fv n pmt r) (ovNewtonDf pv n pmt r))

/-- The annualized percentage returned on convergence (App.tsx line 65) in
the overflow-refined model: `newR * frequencyMap[state.paymentFrequency] * 100`. -/
def ovAnnualize (freq : PaymentFrequency) (x : JS) : JS :=
  ovMul (ovMul x (JS.num (frequencyMap freq : ℚ))) (JS.num 100)

/-- The `for` loop of `calculateInterestRate` (App.tsx lines 58-71) in the
overflow-refined model. -/
def ovNewtonLoop (freq : PaymentFrequency) (pv fv n pmt : JS) :
    ℕ → JS → Except String JS
  | 0, _ => .error nonConvergenceMsg
  | fuel + 1, r =>
    if jsLt (jsAbs (ovSub (ovNewtonStep pv fv n pmt r) r)) (JS.num tolerance) then
      .ok (ovAnnualize freq (ovNewtonStep pv fv n pmt r))
    else
      ovNewtonLoop freq pv fv n pmt fuel (ovNewtonStep pv fv n pmt r)

/-- `calculateInterestRate` (App.tsx lines 53-72) in the overflow-refined
model: at most 100 Newton iterations from the initial guess `r = 0.1`. -/
def ovCalculateInterestRate (freq : PaymentFrequency) (pv fv n pmt : JS) :
    Except String JS :=
  ovNewtonLoop freq pv fv n pmt 100 (JS.num (1 / 10))

end FinCalc

deriving instance DecidableEq for Except

namespace FinCalc

/-! Helper lemmas about the Newton iteration. -/

/-- Shifting the start of the iterate sequence by one step. -/
lemma iterSeq_shift (pv fv n pmt r0 : JS) :
    ∀ k, iterSeq pv fv n pmt r0 (k + 1) =
      iterSeq pv fv n pmt (newtonStep pv fv n pmt r0) k
  | 0 => rfl
  | k + 1 => by
    show newtonStep pv fv n pmt (iterSeq pv fv n pmt r0 (k + 1)) =
      newtonStep pv fv n pmt (iterSeq pv fv n pmt (newtonStep pv fv n pmt r0) k)
    rw [iterSeq_shift pv fv n pmt r0 k]

/-- The convergence test at iteration `k + 1` from `r0` is the test at
iteration `k` from the first Newton update of `r0`. -/
lemma tolMetAt_shift (pv fv n pmt r0 : JS) (k : ℕ) :
    tolMetAt pv fv n pmt r0 (k + 1) ↔
      tolMetAt pv fv n pmt (newtonStep pv fv n pmt r0) k := by
  unfold tolMetAt
  rw [iterSeq_shift]

/-- A successful run of the loop returns the annualized Newton update of some
iterate at which the convergence test held, within the fuel bound. -/
lemma newtonLoop_ok (freq : PaymentFrequency) (pv fv n pmt : JS) :
    ∀ (fuel : ℕ) (r0 v : JS), newtonLoop freq pv fv n pmt fuel r0 = .ok v →
      ∃ k, k < fuel ∧ tolMetAt pv fv n pmt r0 k ∧
        v = annualize freq (newtonStep pv fv n pmt (iterSeq pv fv n pmt r0 k))
  | 0, r0, v => by
    intro h
    simp [newtonLoop] at h
  | fuel + 1, r0, v => by
    intro h
    rw [newtonLoop] at h
    by_cases hc : jsLt (jsAbs (jsSub (newtonStep pv fv n pmt r0) r0))
        (JS.num tolerance) = true
    · rw [if_pos hc] at h
      exact ⟨0, Nat.succ_pos _, hc, (Except.ok.inj h).symm⟩
    · rw [if_neg hc] at h
      obtain ⟨k, hk, ht, hv⟩ :=
        newtonLoop_ok freq pv fv n pmt fuel (newtonStep pv fv n pmt r0) v h
      refine ⟨k + 1, by omega, (tolMetAt_shift pv fv n pmt r0 k).mpr ht, ?_⟩
      rw [iterSeq_shift]
      exact hv

/-- The loop fails exactly when the convergence test holds at no iteration
within the fuel bound, and then the error is the non-convergence message. -/
lemma newtonLoop_error (freq : PaymentFrequency) (pv fv n pmt : JS) :
    ∀ (fuel : ℕ) (r0 : JS) (e : String),
      newtonLoop freq pv fv n pmt fuel r0 = .error e ↔
        (e = nonConvergenceMsg ∧ ∀ k, k < fuel → ¬ tolMetAt pv fv n pmt r0 k)
  | 0, r0, e => by
    constructor
    · intro h
      refine ⟨(Except.error.inj h).symm, ?_⟩
      intro k hk
      exact absurd hk (Nat.not_lt_zero k)
    · intro ⟨he, _⟩
      rw [he]
      rfl
  | fuel + 1, r0, e => by
    rw [newtonLoop]
    by_cases hc : jsLt (jsAbs (jsSub (newtonStep pv fv n pmt r0) r0))
        (JS.num tolerance) = true
    · rw [if_pos hc]
      constructor
      · intro h
        exact absurd h (by simp)
      · intro ⟨_, hall⟩
        exact absurd hc (hall 0 (Nat.succ_pos _))
    · rw [if_neg hc]
      rw [newtonLoop_error freq pv fv n pmt fuel (newtonStep pv fv n pmt r0) e]
      constructor
      · intro ⟨he, hall⟩
        refine ⟨he, ?_⟩
        intro k hk
        match k with
        | 0 => exact hc
        | j + 1 =>
          intro ht
          exact hall j (by omega) ((tolMetAt_shift pv fv n pmt r0 j).mp ht)
      · intro ⟨he, hall⟩
        refine ⟨he, ?_⟩
        intro j hj
        intro ht
        exact hall (j + 1) (by omega) ((tolMetAt_shift pv fv n pmt r0 j).mpr ht)

/-- If the convergence test `|newR - r| < tolerance` holds, the updated
iterate `newR` is a finite number: any comparison against a finite tolerance
is false when the difference is `NaN` or infinite, and the difference is
finite only when both operands are. -/
lemma abs_sub_lt_tol_num :
    ∀ x y : JS, jsLt (jsAbs (jsSub x y)) (JS.num tolerance) = true →
      ∃ a, x = JS.num a
  | .num a, _, _ => ⟨a, rfl⟩
  | .inf p, .num b, h => by cases p <;> simp [jsSub, jsAdd, jsNeg, jsAbs, jsLt] at h
  | .inf p, .inf q, h => by
    cases p <;> cases q <;> simp [jsSub, jsAdd, jsNeg, jsAbs, jsLt] at h
  | .inf p, .nan, h => by simp [jsSub, jsAdd, jsNeg, jsAbs, jsLt] at h
  | .nan, y, h => by cases y <;> simp [jsSub, jsAdd, jsNeg, jsAbs, jsLt] at h

/-- `ovClip` yields a finite number or an infinity, never `NaN`. -/
lemma ovClip_num_or_inf (q : ℚ) :
    (∃ c, ovClip q = JS.num c) ∨ ∃ p, ovClip q = JS.inf p := by
  unfold ovClip
  split
  · exact Or.inl ⟨q, rfl⟩
  · exact Or.inr ⟨_, rfl⟩

/-- Overflow-model version of `abs_sub_lt_tol_num`: if the convergence test
`|newR - r| < tolerance` holds, `newR` is a finite number. -/
lemma ov_abs_sub_lt_tol_num :
    ∀ x y : JS, jsLt (jsAbs (ovSub x y)) (JS.num tolerance) = true →
      ∃ a, x = JS.num a
  | .num a, _, _ => ⟨a, rfl⟩
  | .inf p, .num b, h => by cases p <;> simp [ovSub, ovAdd, jsNeg, jsAbs, jsLt] at h
  | .inf p, .inf q, h => by
    cases p <;> cases q <;> simp [ovSub, ovAdd, jsNeg, jsAbs, jsLt] at h
  | .inf p, .nan, h => by simp [ovSub, ovAdd, jsNeg, jsAbs, jsLt] at h
  | .nan, y, h => by cases y <;> simp [ovSub, ovAdd, jsNeg, jsAbs, jsLt] at h

/-- Annualizing a finite iterate never produces `NaN` in the overflow model:
each multiply yields a finite number or, on overflow, an infinity, and an
infinity times the nonzero constant `100` stays an infinity. -/
lemma ovAnnualize_num_ne_nan (freq : PaymentFrequency) (a : ℚ) :
    ovAnnualize freq (JS.num a) ≠ JS.nan := by
  unfold ovAnnualize
  have h1 : ovMul (JS.num a) (JS.num (frequencyMap freq : ℚ)) =
      ovClip (a * (frequencyMap freq : ℚ)) := rfl
  rw [h1]
  rcases ovClip_num_or_inf (a * (frequencyMap freq : ℚ)) with ⟨c, hc⟩ | ⟨p, hp⟩
  · rw [hc]
    have h2 : ovMul (JS.num c) (JS.num 100) = ovClip (c * 100) := rfl
    rw [h2]
    rcases ovClip_num_or_inf (c * 100) with ⟨d, hd⟩ | ⟨p2, hp2⟩
    · rw [hd]
      exact fun h => JS.noConfusion h
    · rw [hp2]
      exact fun h => JS.noConfusion h
  · rw [hp]
    have h3 : ovMul (JS.inf p) (JS.num 100) =
        if (100:ℚ) = 0 then JS.nan else JS.inf (p == decide ((0:ℚ) < 100)) := rfl
    rw [h3, if_neg (by norm_num)]
    exact fun h => JS.noConfusion h

/-- A successful run of the overflow-model loop returns the annualization of
a finite iterate. -/
lemma ovNewtonLoop_ok_shape (freq : PaymentFrequency) (pv fv n pmt : JS) :
    ∀ (fuel : ℕ) (r0 v : JS), ovNewtonLoop freq pv fv n pmt fuel r0 = .ok v →
      ∃ a, v = ovAnnualize freq (JS.num a)
  | 0, r0, v => by
    intro h
    simp [ovNewtonLoop] at h
  | fuel + 1, r0, v => by
    intro h
    rw [ovNewtonLoop] at h
    by_cases hc : jsLt (jsAbs (ovSub (ovNewtonStep pv fv n pmt r0) r0))
        (JS.num tolerance) = true
    · rw [if_pos hc] at h
      obtain ⟨a, ha⟩ := ov_abs_sub_lt_tol_num _ _ hc
      refine ⟨a, ?_⟩
      rw [← Except.ok.inj h, ha]
    · rw [if_neg hc] at h
      exact ovNewtonLoop_ok_shape freq pv fv n pmt fuel (ovNewtonStep pv fv n pmt r0) v h

/-- Exact-real round-trip algebra: a tuple satisfying the fundamental TVM
identity is reproduced exactly by each of the four closed-form rearrangements,
under the nondegeneracy side conditions. -/
lemma tvm_roundtrip_algebra (pv fv n pmt r : ℝ) (hr0 : r ≠ 0) (h1r : 0 < 1 + r)
    (hn : n ≠ 0) (hden : pv + pmt / r ≠ 0)
    (hid : pv * (1 + r) ^ n + pmt * ((1 + r) ^ n - 1) / r + fv = 0) :
    ((-fv) - pmt * ((1 + r) ^ n - 1) / r) / (1 + r) ^ n = pv ∧
    (-(pv * (1 + r) ^ n + pmt * ((1 + r) ^ n - 1) / r)) = fv ∧
    Real.log (((-fv) + pmt / r) / (pv + pmt / r)) / Real.log (1 + r) = n ∧
    ((-fv) - pv * (1 + r) ^ n) * r / ((1 + r) ^ n - 1) = pmt := by
  have hx : (0:ℝ) < (1 + r) ^ n := Real.rpow_pos_of_pos h1r n
  have hx0 : (1 + r) ^ n ≠ 0 := ne_of_gt hx
  have h1r1 : (1:ℝ) + r ≠ 1 := fun h => hr0 (by linarith)
  have hlog : Real.log (1 + r) ≠ 0 := by
    intro h
    rcases Real.log_eq_zero.mp h with h | h | h
    · linarith
    · exact h1r1 h
    · linarith
  have hx1 : (1 + r) ^ n ≠ 1 := by
    intro h
    have hl := Real.log_rpow h1r n
    rw [h, Real.log_one] at hl
    rcases mul_eq_zero.mp hl.symm with h2 | h2
    · exact hn h2
    · exact hlog h2
  refine ⟨?_, by linarith, ?_, ?_⟩
  · rw [div_eq_iff hx0]
    linear_combination -hid
  · have hratio : ((-fv) + pmt / r) / (pv + pmt / r) = (1 + r) ^ n := by
      rw [div_eq_iff hden]
      linear_combination -hid
    rw [hratio, Real.log_rpow h1r, mul_div_assoc, div_self hlog, mul_one]
  · have hA : pmt * ((1 + r) ^ n - 1) / r = (-fv) - pv * (1 + r) ^ n := by
      linear_combination hid
    rw [div_eq_iff hr0] at hA
    rw [div_eq_iff (sub_ne_zero.mpr hx1)]
    linarith

/-- The spec-transcribed Newton iteration computes exactly the source's loop. -/
lemma specNewtonIter_eq_newtonLoop (freq : PaymentFrequency) (pv fv n pmt : JS) :
    ∀ (fuel : ℕ) (r : JS),
      specNewtonIter freq pv fv n pmt fuel r = newtonLoop freq pv fv n pmt fuel r
  | 0, r => rfl
  | fuel + 1, r => by
    rw [specNewtonIter, newtonLoop,
      specNewtonIter_eq_newtonLoop freq pv fv n pmt fuel]
    rfl

/-! The claim theorems. -/

/-- C1: for every finite `pv`, `pmt`, `n` and nonzero periodic rate `r`, the
four closed-form solve branches return exactly the spec's formulas with the
sign convention applied: the `futureValue` input is negated before entering
the formulas (`fv = -futureValue`), `presentValue` returns
`(fv - pmt*((1+r)^n - 1)/r) / (1+r)^n`, `futureValue` returns
`-(pv*(1+r)^n + pmt*((1+r)^n - 1)/r)` (output re-negated), `numberOfPeriods`
returns `ln((fv + pmt/r) / (pv + pmt/r)) / ln(1+r)`, and `payment` returns
`(fv - pv*(1+r)^n)*r / ((1+r)^n - 1)`. -/
theorem c1_closed_forms_match_spec (pv fvIn rate n pmt : ℝ)
    (freq : PaymentFrequency) (r : ℝ)
    (hr : rate / 100 / (frequencyMap freq : ℝ) = r) (hnz : r ≠ 0) :
    solveForR .presentValue pv fvIn rate n pmt freq =
      .ok (specPresentValueFormula (-fvIn) pmt r n) ∧
    solveForR .futureValue pv fvIn rate n pmt freq =
      .ok (specFutureValueFormula pv pmt r n) ∧
    solveForR .numberOfPeriods pv fvIn rate n pmt freq =
      .ok (specNumberOfPeriodsFormula pv (-fvIn) pmt r) ∧
    solveForR .payment pv fvIn rate n pmt freq =
      .ok (specPaymentFormula pv (-fvIn) r n) := by
  subst hr
  exact ⟨rfl, rfl, rfl, rfl⟩

/-- Witness for C1 at `rate = 1200`, monthly (periodic `r = 1`), `pv = 5`,
`futureValue = 7`, `n = 2`, `pmt = 11`. -/
theorem c1_witness :
    ((1200:ℝ) / 100 / (frequencyMap .monthly : ℝ) = 1 ∧ (1:ℝ) ≠ 0) ∧
    solveForR .presentValue 5 7 1200 2 11 .monthly =
      .ok (specPresentValueFormula (-7) 11 1 2) :=
  ⟨⟨by norm_num [frequencyMap], by norm_num⟩,
    (c1_closed_forms_match_spec 5 7 1200 2 11 .monthly 1
      (by norm_num [frequencyMap]) (by norm_num)).1⟩

/-- C4: the interest-rate solver is Newton-Raphson on
`f(r) = pv*(1+r)^n + pmt*((1+r)^n - 1)/r + fv` with initial guess
`r0 = 0.1`, update `r_next = r - f(r)/f'(r)` for at most 100 iterations,
stopping when `|r_next - r| < 1e-6`, and on convergence returning
`r_next * periodsPerYear(frequency) * 100`: the source's
`calculateInterestRate` computes exactly the spec-transcribed procedure. -/
theorem c4_interest_solver_is_spec_newton (freq : PaymentFrequency)
    (pv fv n pmt : JS) :
    calculateInterestRate freq pv fv n pmt = specNewtonSolve freq pv fv n pmt :=
  (specNewtonIter_eq_newtonLoop freq pv fv n pmt 100 (JS.num (1 / 10))).symm

/-- C6: for every finite nominal annual rate and every frequency, the
effective-rate conversion returns `rate / 100 / periodsPerYear(frequency)`,
and the periods-per-year table maps monthly, yearly, daily, weekly,
semi-monthly, bi-weekly, semi-annually to 12, 1, 365, 52, 24, 26, 2. -/
theorem c6_effective_rate (q : ℚ) (freq : PaymentFrequency) (a b c d : JS) :
    getEffectiveRate
      { presentValue := a, futureValue := b, interestRate := JS.num q,
        numberOfPeriods := c, payment := d, paymentFrequency := freq } =
      JS.num (q / 100 / (frequencyMap freq : ℚ)) ∧
    frequencyMap .monthly = 12 ∧ frequencyMap .yearly = 1 ∧
    frequencyMap .daily = 365 ∧ frequencyMap .weekly = 52 ∧
    frequencyMap .semiMonthly = 24 ∧ frequencyMap .biWeekly = 26 ∧
    frequencyMap .semiAnnually = 2 := by
  refine ⟨?_, rfl, rfl, rfl, rfl, rfl, rfl, rfl⟩
  show jsDiv (jsDiv (JS.num q) (JS.num 100)) (JS.num (frequencyMap freq : ℚ)) =
    JS.num (q / 100 / (frequencyMap freq : ℚ))
  have h1 : jsDiv (JS.num q) (JS.num 100) = JS.num (q / 100) := by
    unfold jsDiv
    norm_num
  rw [h1]
  unfold jsDiv
  cases freq <;> norm_num [frequencyMap]

attribute [local semireducible] Rat.add Rat.mul Rat.sub Rat.inv Rat.ofScientific in
/-- C8 counterexample: the tuple `pv = 2`, `fv = -2`, periodic rate `r = 1`
(nominal 1200 monthly), `n = 3`, `pmt = -2` satisfies the fundamental TVM
identity exactly, yet solving for `numberOfPeriods` returns `NaN`
(`fv + pmt/r` and `pv + pmt/r` are both zero, and `0/0` is `NaN`), which is
not within any relative tolerance of the held value `n = 3`. -/
theorem c8_counterexample :
    ((2:ℚ) * (1 + 1) ^ (3:ℕ) + (-2) * ((1 + 1) ^ (3:ℕ) - 1) / 1 + (-2) = 0) ∧
    getEffectiveRate degenerateTupleState = JS.num 1 ∧
    degenerateTupleState.numberOfPeriods = JS.num 3 ∧
    solveFor .numberOfPeriods degenerateTupleState = .ok JS.nan ∧
    JS.finite JS.nan = false :=
  ⟨by norm_num, by decide, rfl, by decide, rfl⟩

/-- C8 (amended): for every tuple of finite reals satisfying the fundamental
TVM identity `pv*(1+r)^n + pmt*((1+r)^n - 1)/r + fv = 0` with the
nondegeneracy conditions `r ≠ 0`, `0 < 1 + r`, `n ≠ 0` and `pv + pmt/r ≠ 0`,
solving for any of the four closed-form fields while holding the other four
fixed reproduces the original value exactly (hence within any relative
tolerance). -/
theorem c8_roundtrip_closed_forms (pv fvIn rate n pmt : ℝ)
    (freq : PaymentFrequency) (r : ℝ)
    (hr : rate / 100 / (frequencyMap freq : ℝ) = r) (hnz : r ≠ 0)
    (h1r : 0 < 1 + r) (hn : n ≠ 0) (hden : pv + pmt / r ≠ 0)
    (hid : pv * (1 + r) ^ n + pmt * ((1 + r) ^ n - 1) / r + fvIn = 0) :
    solveForR .presentValue pv fvIn rate n pmt freq = .ok pv ∧
    solveForR .futureValue pv fvIn rate n pmt freq = .ok fvIn ∧
    solveForR .numberOfPeriods pv fvIn rate n pmt freq = .ok n ∧
    solveForR .payment pv fvIn rate n pmt freq = .ok pmt := by
  subst hr
  obtain ⟨h1, h2, h3, h4⟩ :=
    tvm_roundtrip_algebra pv fvIn n pmt _ hnz h1r hn hden hid
  exact ⟨congrArg Except.ok h1, congrArg Except.ok h2,
    congrArg Except.ok h3, congrArg Except.ok h4⟩

/-- Witness for C8 (amended) at `pv = 1`, `fvIn = -3`, `rate = 1200` monthly
(periodic `r = 1`), `n = 1`, `pmt = 1`. -/
theorem c8_witness :
    ((1:ℝ) * (1 + 1) ^ (1:ℝ) + 1 * ((1 + 1) ^ (1:ℝ) - 1) / 1 + (-3) = 0) ∧
    solveForR .numberOfPeriods 1 (-3) 1200 1 1 .monthly = .ok 1 := by
  have hid : (1:ℝ) * (1 + 1) ^ (1:ℝ) + 1 * ((1 + 1) ^ (1:ℝ) - 1) / 1 + (-3) = 0 := by
    rw [Real.rpow_one]
    norm_num
  refine ⟨hid, ?_⟩
  exact (c8_roundtrip_closed_forms 1 (-3) 1200 1 1 .monthly 1
    (by norm_num [frequencyMap]) (by norm_num) (by norm_num) (by norm_num)
    (by norm_num) hid).2.2.1

/-- C5: for every input the interest-rate solve terminates within the
100-iteration budget: it fails with the non-convergence error exactly when no
iteration among the first 100 meets the `1e-6` tolerance, and any returned
value is the annualized Newton update of an iterate at which the tolerance
was met — never a best-effort guess after exhausting the budget. -/
theorem c5_bounded_termination (freq : PaymentFrequency) (pv fv n pmt : JS) :
    (∀ e, calculateInterestRate freq pv fv n pmt = .error e ↔
      (e = nonConvergenceMsg ∧
        ∀ k, k < 100 → ¬ tolMetAt pv fv n pmt (JS.num (1 / 10)) k)) ∧
    (∀ v, calculateInterestRate freq pv fv n pmt = .ok v →
      ∃ k, k < 100 ∧ tolMetAt pv fv n pmt (JS.num (1 / 10)) k ∧
        v = annualize freq (newtonStep pv fv n pmt
          (iterSeq pv fv n pmt (JS.num (1 / 10)) k))) :=
  ⟨fun e => newtonLoop_error freq pv fv n pmt 100 (JS.num (1 / 10)) e,
   fun v h => newtonLoop_ok freq pv fv n pmt 100 (JS.num (1 / 10)) v h⟩

/-- C10 (amended): any value returned by the interest-rate iteration is the
annualization `newR * periodsPerYear * 100` of a finite converged iterate
`newR` — the tolerance comparison `|newR - r| < 1e-6` only holds on finite
differences — and is therefore never `NaN`; it is either a finite number or
an infinity produced by binary64 overflow in that final multiplication. -/
theorem c10_returned_value_not_nan (freq : PaymentFrequency)
    (pv fv n pmt v : JS)
    (h : ovCalculateInterestRate freq pv fv n pmt = .ok v) :
    v ≠ JS.nan ∧ ∃ a, v = ovAnnualize freq (JS.num a) := by
  obtain ⟨a, ha⟩ :=
    ovNewtonLoop_ok_shape freq pv fv n pmt 100 (JS.num (1 / 10)) v h
  refine ⟨?_, a, ha⟩
  rw [ha]
  exact ovAnnualize_num_ne_nan freq a

/-- C7 (amended): the solver performs no input validation: for every state —
including states whose known fields are `NaN` or infinite — and every
requested field other than the interest rate, `solveFor` returns a numeric
result (possibly `NaN`); no InvalidInputs failure exists anywhere in the
code, and no notion of a count of unknown fields is represented. -/
theorem c7_no_validation_numeric_result (s : CalcState) (f : SolveField)
    (h : f ≠ SolveField.interestRate) : ∃ v, solveFor f s = .ok v := by
  cases f with
  | presentValue => exact ⟨_, rfl⟩
  | futureValue => exact ⟨_, rfl⟩
  | interestRate => exact absurd rfl h
  | numberOfPeriods => exact ⟨_, rfl⟩
  | payment => exact ⟨_, rfl⟩

section
attribute [local semireducible] Rat.add Rat.mul Rat.sub Rat.inv Rat.ofScientific

/-- C2 (evaluation at the failing input): with nominal rate `0` the periodic
rate is `0`, and instead of the zero-rate limiting formulas the payment
branch computes `(fv - pv·1)·0 / (1 - 1) = 0/0 = NaN` and the future-value
branch computes `pmt·(0/0)` inside the annuity term, so both solves return
`NaN` rather than `(pv+fv)/n` and `-pv - pmt·n`. -/
theorem c2_zero_rate_yields_nan :
    getEffectiveRate zeroRateState = JS.num 0 ∧
    solveFor .payment zeroRateState = .ok JS.nan ∧
    solveFor .futureValue zeroRateState = .ok JS.nan :=
  ⟨by decide, by decide, by decide⟩

/-- C3 (evaluation at the failing input): with `n = 0` the derivative `f'` is
exactly `0` at the initial guess, yet the solve does not fail with a
division-singularity condition: the division `f/0` produces an infinity, the
iterates degenerate to `NaN`, the tolerance test never holds, and after 100
iterations the solver throws the generic non-convergence error. -/
theorem c3_zero_derivative_runs_to_nonconvergence :
    newtonDf (JS.num 1) (JS.num 0) (JS.num 0) (JS.num (1 / 10)) = JS.num 0 ∧
    calculateInterestRate .monthly (JS.num 1) (JS.num 1) (JS.num 0) (JS.num 0) =
      .error nonConvergenceMsg :=
  ⟨by decide, by decide⟩

/-- C7 counterexample: a solve request whose `presentValue` field is `NaN`
(a non-finite known field) does not fail with any InvalidInputs condition —
it returns the numeric result `NaN`. -/
theorem c7_counterexample :
    JS.finite nanPvState.presentValue = false ∧
    solveFor .payment nanPvState = .ok JS.nan :=
  ⟨rfl, by decide⟩

/-- Witness for C7 (amended) at the payment field of the `NaN`-input state. -/
theorem c7_witness :
    SolveField.payment ≠ SolveField.interestRate ∧
    ∃ v, solveFor .payment nanPvState = .ok v :=
  ⟨by decide, c7_no_validation_numeric_result nanPvState .payment (by decide)⟩

/-- Witness for C5 at a linear instance (`pmt = 0`, `n = 1`) whose Newton
iteration converges at the first test: `pv = -1`, `fv = 1.1` gives the root
`r = 0.1` at the initial guess, returning `0.1 · 12 · 100 = 120`. -/
theorem c5_witness :
    calculateInterestRate .monthly (JS.num (-1)) (JS.num (11 / 10)) (JS.num 1)
      (JS.num 0) = .ok (JS.num 120) ∧
    ∃ k, k < 100 ∧ tolMetAt (JS.num (-1)) (JS.num (11 / 10)) (JS.num 1)
      (JS.num 0) (JS.num (1 / 10)) k ∧
      JS.num 120 = annualize .monthly (newtonStep (JS.num (-1))
        (JS.num (11 / 10)) (JS.num 1) (JS.num 0) (iterSeq (JS.num (-1))
          (JS.num (11 / 10)) (JS.num 1) (JS.num 0) (JS.num (1 / 10)) k)) :=
  ⟨by decide,
    (c5_bounded_termination .monthly (JS.num (-1)) (JS.num (11 / 10)) (JS.num 1)
      (JS.num 0)).2 (JS.num 120) (by decide)⟩

set_option maxRecDepth 4000 in
/-- C10 counterexample: at `pv = 1`, `fv = -1e306`, `n = 1`, `pmt = 0`
(monthly) the iteration converges — `f` is linear, so the second iterate
repeats the root near `1e306` and the tolerance test passes — and the
returned annualization `newR * 12 * 100 ≈ 1.2e309` exceeds the binary64
range, so the solve returns `+Infinity`, not a finite number. -/
theorem c10_counterexample :
    (largeMagnitude = 10 ^ 306 ∧ binary64Threshold = 2 ^ 1024) ∧
    ovCalculateInterestRate .monthly (JS.num 1) (JS.num (-largeMagnitude))
      (JS.num 1) (JS.num 0) = .ok (JS.inf true) ∧
    JS.finite (JS.inf true) = false :=
  ⟨⟨by norm_num [largeMagnitude], by norm_num [binary64Threshold]⟩, by decide, rfl⟩

/-- Witness for C10 (amended) at a quadratic instance converging at the first
test: `pv = -1`, `fv = 1.21`, `n = 2`, `pmt = 0` returns the value `120`,
which is the annualization of the finite converged iterate `0.1`. -/
theorem c10_witness :
    ovCalculateInterestRate .monthly (JS.num (-1)) (JS.num (121 / 100))
      (JS.num 2) (JS.num 0) = .ok (JS.num 120) ∧
    (JS.num 120 ≠ JS.nan ∧ ∃ a, JS.num 120 = ovAnnualize .monthly (JS.num a)) :=
  ⟨by decide,
    c10_returned_value_not_nan .monthly (JS.num (-1)) (JS.num (121 / 100))
      (JS.num 2) (JS.num 0) (JS.num 120) (by decide)⟩

/-- C9: the solver computes the result at full precision and the display
update — and only the display update — rounds it, with `toFixed(3)` for the
interest rate and `toFixed(2)` for every other field; at a concrete input the
solver's own result (`-13/12`) carries more precision than its display
rounding (`-1.08`), so the solver itself performs no display rounding. -/
theorem c9_full_precision_then_display_rounding :
    (∀ (f : SolveField) (s : CalcState) (v : JS), solveFor f s = .ok v →
      displayedStore f s =
        .ok (toFixedVal v (if f = SolveField.interestRate then 3 else 2))) ∧
    (solveFor .payment fullPrecisionState = .ok (JS.num (-13 / 12)) ∧
      toFixedVal (JS.num (-13 / 12)) 2 ≠ JS.num (-13 / 12)) := by
  constructor
  · intro f s v h
    unfold displayedStore
    rw [h]
    rfl
  · exact ⟨by decide, by decide⟩

/-- Witness for C9 at the payment solve of the full-precision state. -/
theorem c9_witness :
    solveFor .payment fullPrecisionState = .ok (JS.num (-13 / 12)) ∧
    displayedStore .payment fullPrecisionState =
      .ok (toFixedVal (JS.num (-13 / 12)) 2) :=
  ⟨by decide,
    c9_full_precision_then_display_rounding.1 .payment fullPrecisionState
      (JS.num (-13 / 12)) (by decide)⟩

end

end FinCalc
